import Mathlib

/-!
Verification development for the A-share insight report pipeline
(`a_share_insight.py`, `a_share_insight_v2.py`, `volces_chat.py`).

The Python sources are shallowly embedded: pandas DataFrames become
explicit tables (lists of rows), the pickle/in-memory caches become
explicit state values that every call threads through, Python exceptions
become `Except PyErr`, and numeric values become exact rationals `ℚ`
(the scripts use Python floats; none of the properties checked here
depend on floating-point rounding, and the one place where decimal
rendering matters — the `:.2f` format — is modelled exactly by
`formatFixed2`).
-/

-- The rational operations of Batteries are `@[irreducible]`; concrete
-- evaluations below (`decide` on closed scenario inputs) need them to
-- unfold.
attribute [local semireducible] Rat.add Rat.sub Rat.mul Rat.inv

/-- Python exception values that the embedded code can raise. -/
inductive PyErr where
  | keyError (key : String)
  | valueError (msg : String)
  | indexError
  | typeError
  deriving DecidableEq, Repr

/-- Two-digit zero padding, as used by `strftime` fields `%m`, `%d`, `%H`. -/
def pad2 (n : ℕ) : String :=
  if n < 10 then "0" ++ toString n else toString n

/-- Wall-clock date and hour, the part of `datetime.now()` that the cache
layer consumes through `strftime`. -/
structure DT where
  year : ℕ
  month : ℕ
  day : ℕ
  hour : ℕ
  deriving DecidableEq, Repr

/-- `datetime.now().strftime('%Y%m%d')` — the daily cache bucket. -/
def timeStrDaily (t : DT) : String :=
  toString t.year ++ pad2 t.month ++ pad2 t.day

/-- `datetime.now().strftime('%Y%m%d%H')` — the hourly cache bucket. -/
def timeStrHourly (t : DT) : String :=
  timeStrDaily t ++ pad2 t.hour

/-- The `frequency` parameter of `cache_data`. -/
inductive Freq where
  | hourly
  | daily
  deriving DecidableEq, Repr

/-- The bucket string `time_str` computed at the top of `cache_data`. -/
def bucketStr (freq : Freq) (now : DT) : String :=
  match freq with
  | .hourly => timeStrHourly now
  | .daily => timeStrDaily now

/-- A row of a generic table: pandas row access `row[col]` becomes an
association-list lookup. -/
def Row : Type := List (String × ℚ)

instance : DecidableEq Row := by unfold Row; infer_instance

/-- `row[col]` for a generic row. -/
def Row.get (r : Row) (c : String) : Option ℚ :=
  List.lookup c r

/-- A generic table (a pandas DataFrame): a list of column names and a
list of rows.  `pd.DataFrame()` is `Table.empty`. -/
structure Table where
  cols : List String
  rows : List Row
  deriving DecidableEq

/-- `pd.DataFrame()` — the fully empty frame returned by the cache layer
on producer failure: it has no columns and no rows. -/
def Table.empty : Table := ⟨[], []⟩

/-- The `"_".join(map(str, args)) + "_".join(f"{k}_{v}" ...)` parameter
serialization of `cache_data`. -/
def paramsStr (args : List String) (kwargs : List (String × String)) : String :=
  String.intercalate "_" args ++
    String.intercalate "_" (kwargs.map fun kv => kv.1 ++ "_" ++ kv.2)

/-- `f"{filename}_{params_str}_{time_str}.pkl"`. -/
def uniqueFilename (filename params timeStr : String) : String :=
  filename ++ "_" ++ params ++ "_" ++ timeStr ++ ".pkl"

/-- `os.path.join('../cache', unique_filename)`. -/
def cacheFilepath (filename params timeStr : String) : String :=
  "../cache/" ++ uniqueFilename filename params timeStr

/-- The mutable state that `cache_data` reads and writes: the module-level
`_cache` dict and the on-disk `../cache` directory, both keyed by the
file path.  The value type is a parameter because the Python dict holds
whichever table representation the producer returns. -/
structure CacheState (α : Type) where
  mem : List (String × α)
  disk : List (String × α)
  deriving DecidableEq

/-- The observable outcome of one `cache_data` call: the returned table,
the cache state afterwards, and whether `data_func` was invoked. -/
structure CacheCall (α : Type) where
  value : α
  state : CacheState α
  invoked : Bool
  deriving DecidableEq

/-- The body of `cache_data(filename, data_func, *args, frequency=...,
**kwargs)` (a_share_insight.py lines 40–73) after the unique file path
has been computed: in-memory lookup, then disk lookup, then produce and
persist.  The producer `data_func(*args, **kwargs)` is abstracted as its
outcome, an `Except`; `emptyVal` is `pd.DataFrame()` in the chosen table
representation. -/
def cacheDataAt {α : Type} (emptyVal : α) (filepath : String)
    (producer : Except Unit α) (s : CacheState α) : CacheCall α :=
  match List.lookup filepath s.mem with
  | some data => ⟨data, s, false⟩
  | none =>
    match List.lookup filepath s.disk with
    | some data => ⟨data, ⟨(filepath, data) :: s.mem, s.disk⟩, false⟩
    | none =>
      match producer with
      | .ok data =>
        ⟨data, ⟨(filepath, data) :: s.mem, (filepath, data) :: s.disk⟩, true⟩
      | .error _ => ⟨emptyVal, s, true⟩

/-- `cache_data` proper: compute `time_str` and the unique file path,
then run the lookup/produce/persist sequence above. -/
def cacheData {α : Type} (emptyVal : α) (filename : String) (args : List String)
    (kwargs : List (String × String)) (freq : Freq) (now : DT)
    (producer : Except Unit α) (s : CacheState α) : CacheCall α :=
  cacheDataAt emptyVal
    (cacheFilepath filename (paramsStr args kwargs) (bucketStr freq now)) producer s

/-- `cache_pkl(name, func, *a, **kw)` (a_share_insight_v2.py lines
18–28): daily-bucketed, disk-only memoization.  Returns the value, the
disk state afterwards, and whether `func` was invoked. -/
def cachePkl {α : Type} (emptyVal : α) (name : String) (now : DT)
    (producer : Except Unit α) (disk : List (String × α)) :
    α × List (String × α) × Bool :=
  match List.lookup ("cache/" ++ name ++ "_" ++ timeStrDaily now ++ ".pkl") disk with
  | some data => (data, disk, false)
  | none =>
    match producer with
    | .ok data =>
      (data, ("cache/" ++ name ++ "_" ++ timeStrDaily now ++ ".pkl", data) :: disk, true)
    | .error _ => (emptyVal, disk, true)

/-- `drop_duplicates(subset=[date_col], keep='last')`: keep a row only if
no later row has the same key. -/
def keepLastFilter (key : Row → Option ℚ) : List Row → List Row
  | [] => []
  | r :: rest =>
    if rest.any (fun r2 => key r2 = key r) then keepLastFilter key rest
    else r :: keepLastFilter key rest

/-- Maximum of a list of rationals, `none` on the empty list
(`pd.to_datetime(col).max()` with dates represented as day numbers). -/
def listMaxQ : List ℚ → Option ℚ
  | [] => none
  | a :: t =>
    match listMaxQ t with
    | none => some a
    | some m => some (max a m)

/-- The `start_date='19900101'` used to seed a base series on first run,
as a day number. -/
def epochStartDay : ℚ := 0

/-- `get_incremental_daily_data(base_filename, data_func, date_col_name,
...)` (a_share_insight.py lines 75–117).  Dates are day numbers; `base?`
is the current content of `{base_filename}_base.pkl`; `today` is
`datetime.now().strftime('%Y%m%d')`.  Returns `(returned table, final
disk content of the base file, whether the base file was written)`.
Errors raised outside the inner `try` blocks (a base frame whose date
column is absent or empty, so that `max()` has no value) propagate. -/
def getIncrementalDailyData (base? : Option Table) (today : ℚ)
    (dateCol : String) (producer : ℚ → Except Unit Table) :
    Except PyErr (Table × Option Table × Bool) :=
  match base? with
  | some dfBase =>
    match listMaxQ (dfBase.rows.filterMap (fun r => r.get dateCol)) with
    | none => .error (.keyError dateCol)
    | some lastDate =>
      if lastDate + 1 ≤ today then
        match producer (lastDate + 1) with
        | .ok dfNew =>
          if dfNew.rows.isEmpty then
            .ok (dfBase, some dfBase, false)
          else
            .ok
              (⟨dfBase.cols,
                  keepLastFilter (fun r => r.get dateCol) (dfBase.rows ++ dfNew.rows)⟩,
                some ⟨dfBase.cols,
                  keepLastFilter (fun r => r.get dateCol) (dfBase.rows ++ dfNew.rows)⟩,
                true)
        | .error _ => .ok (dfBase, some dfBase, false)
      else .ok (dfBase, some dfBase, false)
  | none =>
    match producer epochStartDay with
    | .ok dfFull => .ok (dfFull, some dfFull, true)
    | .error _ => .ok (Table.empty, none, false)

/-- Substring test on character lists (the Python `in` operator for
strings). -/
def hasSubList (pat : List Char) : List Char → Bool
  | [] => pat.isEmpty
  | c :: rest => pat.isPrefixOf (c :: rest) || hasSubList pat rest

/-- `pat in s` for strings. -/
def strHasSubstr (pat s : String) : Bool :=
  hasSubList pat.data s.data

/-- `re.search(r'_(\d{n})\.pkl$', filename)`: because the pattern is
anchored at the end of the string, it matches exactly when the filename
ends in an underscore, `n` digits, and `.pkl`; the returned group is the
digit block. -/
def matchDigitsSuffix (n : ℕ) (f : String) : Option String :=
  let r := f.data.reverse
  if r.take 4 = ['l', 'k', 'p', '.'] then
    let rest := r.drop 4
    if (rest.take n).length = n ∧ (rest.take n).all Char.isDigit ∧
        (rest.drop n).head? = some '_' then
      some (String.mk (rest.take n).reverse)
    else none
  else none

/-- `re.search(r'_(\d{10})\.pkl$', filename)` — the hourly bucket. -/
def matchHourly (f : String) : Option String := matchDigitsSuffix 10 f

/-- `re.search(r'_(\d{8})\.pkl$', filename)` — the daily bucket. -/
def matchDaily (f : String) : Option String := matchDigitsSuffix 8 f

/-- `'_base.pkl' in filename` — the guard that protects base entries. -/
def isBaseFile (f : String) : Bool := strHasSubstr "_base.pkl" f

/-- The per-file decision of `clean_old_cache` (a_share_insight.py lines
119–140): `true` when the file is removed. -/
def shouldRemoveCache (now : DT) (f : String) : Bool :=
  if isBaseFile f then false
  else
    let dailyStale : Bool :=
      match matchDaily f with
      | some d => decide (d ≠ timeStrDaily now)
      | none => false
    match matchHourly f with
    | some b => if b ≠ timeStrHourly now then true else dailyStale
    | none => dailyStale

/-- `clean_old_cache()` as a transformation of the cache directory
listing: the files that survive the sweep. -/
def cleanOldCache (now : DT) (files : List String) : List String :=
  files.filter (fun f => !shouldRemoveCache now f)

/-! ### Numeric formatting

Python's `round(x, 2)` and the `:.2f` / `:.1f` format specifiers round
half to even; `roundHalfEven` models that exactly on rationals. -/

/-- Round half to even (banker's rounding), as Python's `round` and
`format` do. -/
def roundHalfEven (q : ℚ) : ℤ :=
  if q - ⌊q⌋ < 1 / 2 then ⌊q⌋
  else if 1 / 2 < q - ⌊q⌋ then ⌊q⌋ + 1
  else if Even ⌊q⌋ then ⌊q⌋ else ⌊q⌋ + 1

/-- `round(q, 2)` as an exact rational. -/
def round2Q (q : ℚ) : ℚ := (roundHalfEven (q * 100) : ℚ) / 100

/-- `f"{q:.2f}"`.  (For negative values this renders `-0.004` as
`"0.00"` where Python prints `"-0.00"`; no theorem below touches that
corner.) -/
def formatFixed2 (q : ℚ) : String :=
  let c := roundHalfEven (q * 100)
  let a := c.natAbs
  let body := toString (a / 100) ++ "." ++ pad2 (a % 100)
  if c < 0 then "-" ++ body else body

/-- `f"{q:.1f}"`. -/
def formatFixed1 (q : ℚ) : String :=
  let c := roundHalfEven (q * 10)
  let a := c.natAbs
  let body := toString (a / 10) ++ "." ++ toString (a % 10)
  if c < 0 then "-" ++ body else body

/-! ### Run mode and the trading clock -/

/-- The run-mode enumeration set at the top of `run_analysis`. -/
inductive RunMode where
  | LIVE_MORNING
  | MIDDAY_SUMMARY
  | LIVE_AFTERNOON
  | POST_MARKET
  deriving DecidableEq, Repr

/-- `run_analysis` lines 794–798: the mode derived from the wall clock. -/
def runModeOf (hour weekday : ℕ) : RunMode :=
  if 9 ≤ hour ∧ hour < 12 ∧ weekday < 5 then .LIVE_MORNING
  else if 12 ≤ hour ∧ hour < 13 ∧ weekday < 5 then .MIDDAY_SUMMARY
  else if 13 ≤ hour ∧ hour < 15 ∧ weekday < 5 then .LIVE_AFTERNOON
  else .POST_MARKET

/-- `_get_elapsed_trading_minutes` (lines 240–251).  The time of day is
minutes since midnight (fractional seconds allowed); 570 = 09:30,
690 = 11:30, 780 = 13:00, 900 = 15:00. -/
def elapsedTradingMinutes (t : ℚ) : ℚ :=
  if t < 570 then 0
  else if t ≤ 690 then t - 570
  else if t < 780 then 120
  else if t ≤ 900 then 120 + (t - 780)
  else 240

/-! ### Market liquidity (`analyze_market_liquidity`, lines 253–305) -/

/-- One row of the market-fund-flow frame, restricted to the two columns
the analysis reads (`主力净流入-净额`, `小单净流入-净额`). -/
structure MffRow where
  mainNet : ℚ
  retailNet : ℚ
  deriving DecidableEq, Repr

/-- The `analysis_result['liquidity']` dict. -/
structure LiquidityInd where
  totalVolume : String
  estimatedTurnoverStr : String
  volumeLevel : String
  volumeChangeDesc : String
  mainNetInflow : String
  retailNetInflow : String
  inflowPercentage : ℚ
  volumeQualitativeLevel : String
  deriving DecidableEq, Repr

/-- `iloc[-6:-1]` on a column: the five entries preceding the last one
(clamped like pandas when the column is shorter). -/
def slice5Before (l : List ℚ) : List ℚ :=
  ((l.drop (l.length - 6)).dropLast)

/-- Mean of a rational column (`0` for the empty list, standing in for
pandas' NaN, which the claims never exercise). -/
def meanQ (l : List ℚ) : ℚ := l.sum / l.length

/-- Lines 265–273: the turnover value used for classification — the
observed value, extrapolated to a full day when the run is live and the
trading clock has started. -/
def volumeAnalysisTurnover (total : ℚ) (mode : RunMode) (nowMin : ℚ) : ℚ :=
  if mode ≠ .POST_MARKET ∧ elapsedTradingMinutes nowMin > 0 then
    total * (240 / elapsedTradingMinutes nowMin)
  else total

/-- The body of `analyze_market_liquidity`: indices are abstracted to
their `amount` columns (the only field read).  Raises `ValueError` on
missing/empty inputs and `IndexError` on `iloc[-2]` when an index has a
single row, exactly like the source. -/
def analyzeMarketLiquidityCore (mff? : Option (List MffRow))
    (shAmounts? szAmounts? : Option (List ℚ)) (mode : RunMode) (nowMin : ℚ) :
    Except PyErr LiquidityInd :=
  match mff?, shAmounts?, szAmounts? with
  | some mff, some sh, some sz =>
    if mff.isEmpty || sh.isEmpty || sz.isEmpty then
      .error (.valueError "市场资金流或大盘历史行情数据为空")
    else
      match sh.getLast?, sz.getLast?, sh.dropLast.getLast?, sz.dropLast.getLast?,
          mff.getLast? with
      | some shL, some szL, some shP, some szP, some latestFlow =>
        let totalTurnover := (shL + szL) / 100000000
        let yesterdayTurnover := (shP + szP) / 100000000
        let vat := volumeAnalysisTurnover totalTurnover mode nowMin
        let descPre : String :=
          if mode ≠ .POST_MARKET ∧ elapsedTradingMinutes nowMin > 0 then "预估" else ""
        let estStr : String :=
          if mode ≠ .POST_MARKET ∧ elapsedTradingMinutes nowMin > 0 then
            " (预估全天: " ++ formatFixed2 vat ++ "亿元)"
          else ""
        let mainNetInflow := latestFlow.mainNet / 100000000
        let retailNetInflow := latestFlow.retailNet / 100000000
        let avg5d := (meanQ (slice5Before sh) + meanQ (slice5Before sz)) / 100000000
        let volumeLevel := if vat > avg5d then "高于5日均量" else "低于5日均量"
        let volumeChange := vat - yesterdayTurnover
        let volumeChangeDesc :=
          if volumeChange < 0 then descPre ++ "缩量 " ++ formatFixed2 |volumeChange| ++ "亿"
          else descPre ++ "放量 " ++ formatFixed2 volumeChange ++ "亿"
        let qualitative :=
          if vat < 10000 * (7 / 10) then "地量水平"
          else if vat ≤ 10000 * (3 / 2) then "平量水平"
          else if vat ≤ 10000 * (5 / 2) then "天量水平"
          else "巨量水平"
        let inflowPercentage := if vat > 0 then mainNetInflow / vat * 100 else 0
        .ok
          { totalVolume := formatFixed2 totalTurnover ++ "亿元"
            estimatedTurnoverStr := estStr
            volumeLevel := volumeLevel
            volumeChangeDesc := volumeChangeDesc
            mainNetInflow := formatFixed2 mainNetInflow ++ "亿元"
            retailNetInflow := formatFixed2 retailNetInflow ++ "亿元"
            inflowPercentage := inflowPercentage
            volumeQualitativeLevel := qualitative }
      | _, _, _, _, _ => .error .indexError
  | _, _, _ => .error (.valueError "市场资金流或大盘历史行情数据为空")

/-- `analyze_market_liquidity` with its enclosing `try/except`: a raise
is caught and `analysis_result['liquidity']` is set to `{}` (here
`none`). -/
def analyzeMarketLiquidity (mff? : Option (List MffRow))
    (shAmounts? szAmounts? : Option (List ℚ)) (mode : RunMode) (nowMin : ℚ) :
    Option LiquidityInd :=
  match analyzeMarketLiquidityCore mff? shAmounts? szAmounts? mode nowMin with
  | .ok v => some v
  | .error _ => none

/-! ### Cell-typed tables for the sentiment and sector analyses -/

/-- A pandas cell that may hold a number or a string. -/
inductive Cell where
  | num (q : ℚ)
  | str (s : String)
  deriving DecidableEq, Repr

/-- A row of a mixed-type frame. -/
def Row2 : Type := List (String × Cell)

instance : DecidableEq Row2 := by unfold Row2; infer_instance

/-- A mixed-type frame: a list of rows. -/
def TableB : Type := List Row2

instance : DecidableEq TableB := by unfold TableB; infer_instance

/-- `row[col]` on a mixed-type row. -/
def getCell (r : Row2) (c : String) : Option Cell :=
  List.lookup c r

/-- Whether a column is present in the frame (pandas raises `KeyError`
on `df[col]` otherwise; rows of an embedded frame share one schema, so
presence in every row models presence of the column). -/
def hasColB (t : TableB) (c : String) : Bool :=
  t.all (fun r => (getCell r c).isSome)

/-- Coerce a cell to a number; arithmetic on a non-numeric cell is a
Python `TypeError`. -/
def cellNumE : Cell → Except PyErr ℚ
  | .num q => .ok q
  | .str _ => .error .typeError

/-- `str(cell)` (only used to build map-lookup keys; no theorem depends
on the numeric rendering). -/
def cellToString : Cell → String
  | .num q => toString q
  | .str s => s

/-- `str.zfill(n)`. -/
def zfill (n : ℕ) (s : String) : String :=
  if n ≤ s.length then s else String.mk (List.replicate (n - s.length) '0') ++ s

/-! ### Market sentiment (`analyze_market_sentiment`, lines 399–424) -/

/-- Line 408: `profit_effect = round((up_count / (up_count + down_count))
* 100, 2) if (up_count + down_count) > 0 else 50.0` — shared verbatim
with `analyze` in a_share_insight_v2.py line 195. -/
def profitEffect (upCount downCount : ℚ) : ℚ :=
  if upCount + downCount > 0 then round2Q (upCount / (upCount + downCount) * 100)
  else 50

/-- The `analysis_result['sentiment']` dict. -/
structure SentimentInd where
  label : String
  summary : String
  profitStr : String
  ztCount : ℕ
  congestionStr : String
  deriving DecidableEq, Repr

/-- The body of `analyze_market_sentiment`.  Python's `f"{x}%"` float
rendering is modelled with `formatFixed2` (the value is already rounded
to two decimals); no theorem depends on those display strings. -/
def analyzeMarketSentimentCore (activity? rank? congestion? : Option TableB) :
    Except PyErr SentimentInd := do
  let activity ←
    match activity? with
    | none => throw (.valueError "赚钱效应数据为空")
    | some a => if a.isEmpty then throw (.valueError "赚钱效应数据为空") else pure a
  if !hasColB activity "item" then throw (.keyError "item")
  if !hasColB activity "value" then throw (.keyError "value")
  let ups := activity.filter (fun r => getCell r "item" == some (Cell.str "上涨"))
  let downs := activity.filter (fun r => getCell r "item" == some (Cell.str "下跌"))
  if ups.isEmpty || downs.isEmpty then
    throw (.valueError "未能从数据中找到'上涨'或'下跌'家数")
  let upCell ←
    match ups.head?.bind (fun r => getCell r "value") with
    | some c => pure c
    | none => throw (.keyError "value")
  let downCell ←
    match downs.head?.bind (fun r => getCell r "value") with
    | some c => pure c
    | none => throw (.keyError "value")
  let upCount ← cellNumE upCell
  let downCount ← cellNumE downCell
  let profit := profitEffect upCount downCount
  let ztCount := (rank?.getD []).length
  let congestionDf ←
    match congestion? with
    | none => throw (.valueError "拥挤度数据为空")
    | some c => if c.isEmpty then throw (.valueError "拥挤度数据为空") else pure c
  let congCell ←
    match congestionDf.getLast?.bind (fun r => getCell r "congestion") with
    | some c => pure c
    | none => throw (.keyError "congestion")
  let congRaw ← cellNumE congCell
  let congestion := congRaw * 100
  let labelAndReasons : String × List String :=
    if profit > 65 ∧ ztCount > 80 then
      ("贪婪", ["赚钱效应强(" ++ formatFixed2 profit ++ "%)"])
    else if profit > 50 then
      ("乐观", ["赚钱效应较好(" ++ formatFixed2 profit ++ "%)"])
    else if 40 ≤ profit ∧ profit ≤ 50 then
      ("中性偏冷", ["赚钱效应一般(" ++ formatFixed2 profit ++ "%)"])
    else if profit < 40 then
      ("恐慌", ["赚钱效应差(" ++ formatFixed2 profit ++ "%)"])
    else ("中性", [])
  let reasons :=
    if congestion > 90 then
      labelAndReasons.2 ++ ["拥挤度过高(" ++ formatFixed1 congestion ++ "%),警惕回调"]
    else if congestion < 20 then
      labelAndReasons.2 ++ ["拥挤度较低(" ++ formatFixed1 congestion ++ "%),或存机会"]
    else labelAndReasons.2
  pure
    { label := labelAndReasons.1
      summary := String.intercalate " | " reasons
      profitStr := formatFixed2 profit ++ "%"
      ztCount := ztCount
      congestionStr := formatFixed2 congestion ++ "%" }

/-- `analyze_market_sentiment` with its enclosing `try/except`: a raise
is caught and `analysis_result['sentiment']` is set to `{}` (`none`). -/
def analyzeMarketSentiment (activity? rank? congestion? : Option TableB) :
    Option SentimentInd :=
  match analyzeMarketSentimentCore activity? rank? congestion? with
  | .ok v => some v
  | .error _ => none

/-! ### Sector strength (`analyze_sector_strength`, lines 426–449)

This metric has **no** enclosing `try/except`: only the empty-input case
is handled by an early return, and any other exception propagates to
`run_analysis`. -/

/-- One row of the sorted heat map (`板块名称`, `量价齐升家数`, `热力值`). -/
structure HeatRow where
  name : String
  ztCount : ℕ
  heat : ℚ
  deriving DecidableEq, Repr

/-- The `rename(columns=...)` dict of line 434. -/
def renameSectorKey (k : String) : String :=
  if k = "名称" then "板块名称"
  else if k = "涨跌幅" then "板块涨跌幅"
  else if k = "今日主力净流入-净额" then "主力净流入"
  else k

/-- Column rename applied to every row. -/
def renameSectorCols (r : Row2) : Row2 :=
  r.map (fun kv => (renameSectorKey kv.1, kv.2))

/-- Increment the count of one key in a count table. -/
def bumpCount (s : String) : List (String × ℕ) → List (String × ℕ)
  | [] => [(s, 1)]
  | (k, n) :: t => if k = s then (k, n + 1) :: t else (k, n) :: bumpCount s t

/-- `groupby(...).count()`: occurrence counts of a list of keys. -/
def countBy (l : List String) : List (String × ℕ) :=
  l.foldl (fun acc s => bumpCount s acc) []

/-- `Series.rank(pct=True)` for one value of a column (average rank of
ties, divided by the column length). -/
def rankPct (vals : List ℚ) (v : ℚ) : ℚ :=
  if vals.length = 0 then 0
  else ((vals.countP (fun x => decide (x < v)) : ℚ) +
    ((vals.countP (fun x => decide (x = v)) : ℚ) + 1) / 2) / vals.length

/-- The sector name of one industry-flow row (used for the merge key and
the display name). -/
def sectorRowName (r : Row2) : String :=
  match getCell r "板块名称" with
  | some (.str nm) => nm
  | _ => ""

/-- Insertion step for sorting by a rational key, ascending. -/
def insertByAsc {α : Type} (f : α → ℚ) (a : α) : List α → List α
  | [] => [a]
  | b :: t => if f a ≤ f b then a :: b :: t else b :: insertByAsc f a t

/-- `sort_values(ascending=True)` by a rational key. -/
def sortByAsc {α : Type} (f : α → ℚ) (l : List α) : List α :=
  l.foldr (insertByAsc f) []

/-- `sort_values(ascending=False)` by a rational key. -/
def sortByDesc {α : Type} (f : α → ℚ) (l : List α) : List α :=
  (sortByAsc f l).reverse

/-- `analyze_sector_strength`, returning the sorted heat map.  An empty
or missing industry-flow frame yields the empty map (the early return of
lines 429–432); a `KeyError`/`TypeError` raised later in the body
propagates, because the source wraps none of it in `try/except`. -/
def analyzeSectorStrengthE (industryFlow? ljqs? : Option TableB)
    (stockMap : List (String × String)) : Except PyErr (List HeatRow) :=
  match industryFlow? with
  | none => .ok []
  | some ifl0 =>
    if ifl0.isEmpty then .ok []
    else
      let ifl := ifl0.map renameSectorCols
      let ljqs := ljqs?.getD []
      (do
        let counts : List (String × ℕ) ←
          if !ljqs.isEmpty && !stockMap.isEmpty then do
            -- ljqs_df['代码'] = ljqs_df['股票代码'].astype(str).str.zfill(6)
            if !hasColB ljqs "股票代码" then throw (.keyError "股票代码")
            let codes := ljqs.map
              (fun r => zfill 6 (cellToString ((getCell r "股票代码").getD (Cell.str ""))))
            -- ljqs_df['精确行业'] = ljqs_df['代码'].map(map); groupby drops unmapped rows
            let industries := codes.filterMap (fun c => stockMap.lookup c)
            -- merge(left_on='板块名称', right_on='精确行业', how='left') + fillna(0)
            if !hasColB ifl "板块名称" then throw (.keyError "板块名称")
            pure (countBy industries)
          else pure []
        -- per-row 量价齐升家数 after the left merge and fillna(0)
        let rowCount : Row2 → ℕ := fun r => (counts.lookup (sectorRowName r)).getD 0
        let countVals : List ℚ := ifl.map (fun r => (rowCount r : ℚ))
        -- 资金强度分 = 主力净流入.rank(pct=True) * 100, or 0 when the column is absent
        let hasMain := hasColB ifl "主力净流入"
        let withFund : List (Row2 × ℚ) ←
          if hasMain then
            ifl.mapM (fun r => do
              let v ← cellNumE ((getCell r "主力净流入").getD (Cell.num 0))
              pure (r, v))
          else pure (ifl.map (fun r => (r, 0)))
        let fundVals := withFund.map (fun rv => rv.2)
        let heatRows : List HeatRow := withFund.map (fun rv =>
          let pop := rankPct countVals ((rowCount rv.1 : ℚ)) * 100
          let fund := if hasMain then rankPct fundVals rv.2 * 100 else 0
          { name := sectorRowName rv.1, ztCount := rowCount rv.1,
            heat := round2Q (7 / 10 * pop + 3 / 10 * fund) })
        pure (sortByDesc (fun h => h.heat) heatRows))

/-! ### Report assembly (`print_report`, lines 670–790)

The report is modelled as the `report_content` list of lines; printing
to the console and writing `reports/index.html` are I/O and outside the
embedding.  Each `analysis_result[...]` dict is an `Option` structure
(`none` models the empty dict `{}` left behind by a failed metric), and
`dict.get(key, default)` becomes an `Option` projection with the same
default. -/

/-- `analysis_result['market_stage']`. -/
structure MarketStage where
  stageDescription : String
  riskType : String
  deriving DecidableEq, Repr

/-- `analysis_result['intermarket']`. -/
structure Intermarket where
  marketTrend : String
  relation : String
  shIndexClose : String
  shPctChg : ℚ
  positionDesc : String
  deriving DecidableEq, Repr

/-- `analysis_result['turnover']`. -/
structure TurnoverInd where
  marketTurnoverRate : String
  turnoverLevel : String
  deriving DecidableEq, Repr

/-- `analysis_result['margin_trading']`. -/
structure MarginInd where
  totalBalance : String
  changeDesc : String
  leverageRatio : String
  leverageLevel : String
  deriving DecidableEq, Repr

/-- One row of `analysis_result['final_ranking']`. -/
structure RankRow where
  name : String
  code : String
  theme : String
  summary : String
  changePct : ℚ
  score : ℚ
  deriving DecidableEq, Repr

/-- The whole `analysis_result` dict as `print_report` reads it. -/
structure AnalysisResult where
  marketStage : Option MarketStage
  conclusionRaw : String
  intermarket : Option Intermarket
  liquidity : Option LiquidityInd
  turnover : Option TurnoverInd
  marginTrading : Option MarginInd
  sentiment : Option SentimentInd
  sectorHeatMap : List HeatRow
  finalRanking : List RankRow
  deriving DecidableEq

/-- `"=" * 80`. -/
def eq80 : String := String.mk (List.replicate 80 '=')

/-- `report_title_map.get(self.run_mode, "A股市场分析报告")`; the run mode
is always one of the four keys. -/
def reportTitle (mode : RunMode) : String :=
  match mode with
  | .LIVE_MORNING => "A股市场多维度实时分析报告 (早盘)"
  | .MIDDAY_SUMMARY => "A股市场午间总结报告"
  | .LIVE_AFTERNOON => "A股市场多维度实时分析报告 (午盘)"
  | .POST_MARKET => "A股市场多维度综合复盘报告"

/-- Lines 682–684: the report header. -/
def headerSection (mode : RunMode) (timeStr : String) : List String :=
  [eq80, reportTitle mode ++ " (" ++ timeStr ++ ")", eq80]

/-- Lines 686–690: section 一 is emitted only when `market_stage` is a
non-empty dict (`if market_stage:`). -/
def stageSection (ms : Option MarketStage) : List String :=
  match ms with
  | none => []
  | some s =>
    ["\n一、市场阶段定性",
     "  - 宏观判断: " ++ s.stageDescription,
     "  - 主要风险: " ++ s.riskType]

/-- Lines 692–698: section 二 with the "未能生成AI分析。" placeholder for
an empty conclusion string. -/
def conclusionSection (conclusionRaw : String) : List String :=
  ["\n二、核心观点与操作建议 (由AI生成)",
   if conclusionRaw = "" then "未能生成AI分析。" else conclusionRaw]

/-- Lines 701–713: section 三, every field through `dict.get` with the
defaults of the source. -/
def marketSection (im : Option Intermarket) (liq : Option LiquidityInd)
    (tov : Option TurnoverInd) (mt : Option MarginInd) : List String :=
  ["\n三、大盘与跨市场分析 (纯数据)",
   "  - 上证指数: 【" ++ ((im.map (fun x => x.shIndexClose)).getD "未知") ++ " (" ++
     formatFixed2 ((im.map (fun x => x.shPctChg)).getD 0) ++ "%)】，目前处于60日【" ++
     ((im.map (fun x => x.positionDesc)).getD "未知") ++ "】",
   "  - 大盘趋势: 【" ++ ((im.map (fun x => x.marketTrend)).getD "未知") ++
     "】 | 股债关系: 【" ++ ((im.map (fun x => x.relation)).getD "未知") ++ "】",
   "  - 成交量:   【" ++ ((liq.map (fun x => x.totalVolume)).getD "未知") ++
     ((liq.map (fun x => x.estimatedTurnoverStr)).getD "") ++ "】，" ++
     ((liq.map (fun x => x.volumeLevel)).getD "") ++ " (" ++
     ((liq.map (fun x => x.volumeChangeDesc)).getD "") ++ ")，属于【" ++
     ((liq.map (fun x => x.volumeQualitativeLevel)).getD "未知") ++ "】",
   "  - 换手率:   【" ++ ((tov.map (fun x => x.marketTurnoverRate)).getD "未知") ++
     "】，当前市场活跃度【" ++ ((tov.map (fun x => x.turnoverLevel)).getD "未知") ++ "】",
   "  - 主力行为: 主力净流入 " ++ ((liq.map (fun x => x.mainNetInflow)).getD "未知") ++
     " (占比" ++ formatFixed2 |(liq.map (fun x => x.inflowPercentage)).getD 0| ++
     "%) | 散户净流入 " ++ ((liq.map (fun x => x.retailNetInflow)).getD "未知"),
   "  - 杠杆资金: 两市融资余额【" ++ ((mt.map (fun x => x.totalBalance)).getD "未知") ++
     "】，较前一日【" ++ ((mt.map (fun x => x.changeDesc)).getD "未知") ++ "】",
   "  - 市场杠杆率: 【" ++ ((mt.map (fun x => x.leverageRatio)).getD "未知") ++
     "】，当前处于【" ++ ((mt.map (fun x => x.leverageLevel)).getD "未知") ++ "】水平"]

/-- Lines 716–719: section 四. -/
def sentimentSection (st : Option SentimentInd) : List String :=
  ["\n四、市场情绪温度计",
   "  - 综合情绪: 【" ++ ((st.map (fun x => x.label)).getD "未知") ++ "】 | " ++
     ((st.map (fun x => x.summary)).getD "无"),
   "  - 核心指标: 赚钱效应: " ++ ((st.map (fun x => x.profitStr)).getD "未知") ++
     ", 量价齐升家数: " ++ ((st.map (fun x => toString x.ztCount)).getD "未知") ++
     ", 大盘拥挤度: " ++ ((st.map (fun x => x.congestionStr)).getD "未知")]

/-- One heat-map display line of lines 727 and 731. -/
def heatRowLine (r : HeatRow) : String :=
  "  - 热力值: " ++ formatFixed1 r.heat ++ " | " ++ r.name ++
    " (量价齐升: " ++ toString r.ztCount ++ ")"

/-- Lines 721–731: section 五, emitted only for a non-empty heat map. -/
def heatSection (hm : List HeatRow) : List String :=
  if hm.isEmpty then []
  else
    ["\n五、板块热力追踪 (人气+资金)",
     "  --- 【当前最强板块 (TOP 5)】 ---"] ++
    (hm.take 5).map heatRowLine ++
    ["\n  --- 【当前最弱板块 (BOTTOM 5)】 ---"] ++
    (sortByAsc (fun r => r.heat) (hm.drop (hm.length - 5))).map heatRowLine

/-- The two display lines of one ranking row (lines 742–743/756–757). -/
def rankRowLines (r : RankRow) : List String :=
  ["  - 得分: " ++ formatFixed1 r.score ++ " | " ++ r.name ++ " (" ++ r.code ++
     ") | 主题: " ++ r.theme ++ " | 实时涨跌: " ++ formatFixed2 r.changePct ++ "%",
   "    摘要: " ++ r.summary]

/-- The dedup-by-theme display loop of lines 739–746 (and 753–760): show
each theme once, stop after five.  Returns the lines and the number of
themes displayed. -/
def themeDisplayLoop : List RankRow → List String → ℕ → List String × ℕ
  | [], _, count => ([], count)
  | r :: rest, seen, count =>
    if r.theme ∈ seen then
      -- no display; `if count >= 5: break` is still checked
      if count ≥ 5 then ([], count)
      else themeDisplayLoop rest seen count
    else
      let next := themeDisplayLoop rest (r.theme :: seen) (count + 1)
      if count + 1 ≥ 5 then (rankRowLines r, count + 1)
      else (rankRowLines r ++ next.1, next.2)

/-- Lines 733–762: section 六, emitted only for a non-empty ranking.
The `"3.e5"` typo of line 748 is in the source. -/
def rankingSection (rk : List RankRow) : List String :=
  if rk.isEmpty then []
  else
    let opportunities := rk.filter (fun r => decide (r.score ≥ 7 / 2))
    let oppLines :=
      if opportunities.isEmpty then ["    当前市场未发现得分高于3.e5的显著机会。"]
      else
        let disp := themeDisplayLoop opportunities [] 0
        if disp.2 = 0 then disp.1 ++ ["    当前市场未发现得分高于3.5的显著机会。"]
        else disp.1
    let risks := sortByAsc (fun r => r.score) (rk.filter (fun r => decide (r.score ≤ 3 / 2)))
    let riskLines :=
      if risks.isEmpty then ["    当前市场未发现得分低于1.5的显著风险。"]
      else
        let disp := themeDisplayLoop risks [] 0
        if disp.2 = 0 then disp.1 ++ ["    当前市场未发现得分低于1.5的显著风险。"]
        else disp.1
    ["\n六、ETF综合评分排名 (基于技术面与板块热力)",
     "\n  --- 【机会清单 (TOP 5 主题)】 ---"] ++ oppLines ++
    ["\n  --- 【风险清单 (BOTTOM 5 主题)】 ---"] ++ riskLines

/-- Lines 764–766: the footer. -/
def footerSection : List String :=
  ["\n" ++ eq80,
   "免责声明: 本报告基于公开数据和量化模型生成，所有结论仅供参考，不构成任何投资建议。",
   eq80]

/-- `print_report`: the full `report_content` line list. -/
def printReport (mode : RunMode) (timeStr : String) (r : AnalysisResult) :
    List String :=
  headerSection mode timeStr ++
  stageSection r.marketStage ++
  conclusionSection r.conclusionRaw ++
  marketSection r.intermarket r.liquidity r.turnover r.marginTrading ++
  sentimentSection r.sentiment ++
  heatSection r.sectorHeatMap ++
  rankingSection r.finalRanking ++
  footerSection

/-! ### The run pipeline (`fetch_data` lines 178–238, `run_analysis`
lines 793–814)

`fetch_data` wraps the whole acquisition phase in one `try/except` and
returns `False` on any escaped exception; the calls wrapped in
`cache_data` cannot raise (`cacheData` is total), so in the embedding
the possible escape points are the two direct provider calls
(`ak.stock_market_fund_flow()` at line 185 and
`ak.stock_sector_fund_flow_rank(...)` at line 189); the incremental
index updates and the remaining cached feeds are abstracted as their
resulting tables.  `run_analysis` executes the metric phase and
`print_report` only when `fetch_data` returned `True`; the four metrics
not modelled here (`turnover`, `margin`, `intermarket`, `market_stage`)
and the AI conclusion are each wrapped in `try/except` in the source and
enter the model as the already-computed optional indicators. -/

/-- Everything one execution of `run_analysis` consumes from the outside
world. -/
structure RunInputs where
  now : DT
  weekday : ℕ
  nowMinutes : ℚ
  timeStr : String
  stockMap : List (String × String)
  mffFetch : Except Unit (List MffRow)
  sectorFetch : Except Unit TableB
  shAmounts : List ℚ
  szAmounts : List ℚ
  activityProducer : Except Unit TableB
  congestionProducer : Except Unit TableB
  ljqsProducer : Except Unit TableB
  cacheS : CacheState TableB
  othersStage : Option MarketStage
  othersConclusion : String
  othersIntermarket : Option Intermarket
  othersTurnover : Option TurnoverInd
  othersMargin : Option MarginInd
  othersRanking : List RankRow

/-- The `self.data` mapping after a successful `fetch_data`. -/
structure FetchedData where
  stockMap : List (String × String)
  mff : List MffRow
  industryFundFlow : TableB
  shAmounts : List ℚ
  szAmounts : List ℚ
  activity : TableB
  congestion : TableB
  ljqs : TableB
  deriving DecidableEq

/-- `fetch_data`: `none` models `return False` (an exception escaped one
of the direct provider calls); the cached feeds go through `cacheData`
and can only come back empty, never raise. -/
def fetchData (inp : RunInputs) : Option FetchedData :=
  match inp.mffFetch with
  | .error _ => none
  | .ok mff =>
    match inp.sectorFetch with
    | .error _ => none
    | .ok industryFundFlow =>
      let c1 := cacheData ([] : TableB) "market_activity" [] [] .hourly inp.now
        inp.activityProducer inp.cacheS
      let c2 := cacheData ([] : TableB) "congestion" [] [] .daily inp.now
        inp.congestionProducer c1.state
      let c3 := cacheData ([] : TableB) "rank_ljqs" [] [] .hourly inp.now
        inp.ljqsProducer c2.state
      some
        { stockMap := inp.stockMap
          mff := mff
          industryFundFlow := industryFundFlow
          shAmounts := inp.shAmounts
          szAmounts := inp.szAmounts
          activity := c1.value
          congestion := c2.value
          ljqs := c3.value }

/-- `run_analysis`: `none` means the execution ended without rendering a
report — either `fetch_data` returned `False` (line 803 guards the whole
analysis block) or an exception escaped `analyze_sector_strength`, the
one metric without a `try/except`. -/
def runAnalysis (inp : RunInputs) : Option (List String) :=
  let mode := runModeOf inp.now.hour inp.weekday
  match fetchData inp with
  | none => none
  | some d =>
    let liq := analyzeMarketLiquidity (some d.mff) (some d.shAmounts)
      (some d.szAmounts) mode inp.nowMinutes
    let senti := analyzeMarketSentiment (some d.activity) (some d.ljqs)
      (some d.congestion)
    match analyzeSectorStrengthE (some d.industryFundFlow) (some d.ljqs) d.stockMap with
    | .error _ => none
    | .ok heat =>
      some (printReport mode inp.timeStr
        { marketStage := inp.othersStage
          conclusionRaw := inp.othersConclusion
          intermarket := inp.othersIntermarket
          liquidity := liq
          turnover := inp.othersTurnover
          marginTrading := inp.othersMargin
          sentiment := senti
          sectorHeatMap := heat
          finalRanking := inp.othersRanking })

/-- The schema-carrying empty frame that the index adapter itself falls
back to (`pd.DataFrame(columns=['day','close','amount'])`,
a_share_insight_v2.py line 45): the columns appropriate to the index
data set. -/
def indexTableSchema : List String := ["day", "close", "amount"]

/-! ### Helper lemmas on rounding -/

theorem floor_le_roundHalfEven (q : ℚ) : ⌊q⌋ ≤ roundHalfEven q := by
  unfold roundHalfEven
  split_ifs <;> omega

theorem le_roundHalfEven (q : ℚ) (n : ℤ) (h : (n : ℚ) ≤ q) :
    n ≤ roundHalfEven q := by
  have h1 : n ≤ ⌊q⌋ := Int.le_floor.mpr h
  have h2 := floor_le_roundHalfEven q
  omega

theorem roundHalfEven_le (q : ℚ) (n : ℤ) (h : q ≤ (n : ℚ)) :
    roundHalfEven q ≤ n := by
  have hfl : ⌊q⌋ ≤ n := by
    calc ⌊q⌋ ≤ ⌊(n : ℚ)⌋ := Int.floor_le_floor h
    _ = n := Int.floor_intCast n
  unfold roundHalfEven
  split_ifs with h1 h2 h3
  · exact hfl
  all_goals {
    have hhalf : (1 : ℚ) / 2 ≤ q - ⌊q⌋ := by linarith
    have hq : (⌊q⌋ : ℚ) + 1 / 2 ≤ (n : ℚ) := by linarith
    have : (⌊q⌋ : ℚ) < (n : ℚ) := by linarith
    have : ⌊q⌋ < n := by exact_mod_cast this
    omega }

theorem round2Q_nonneg (q : ℚ) (h : 0 ≤ q) : 0 ≤ round2Q q := by
  unfold round2Q
  have h1 : (0 : ℤ) ≤ roundHalfEven (q * 100) :=
    le_roundHalfEven _ 0 (by push_cast; nlinarith)
  have h2 : (0 : ℚ) ≤ (roundHalfEven (q * 100) : ℚ) := by exact_mod_cast h1
  positivity

theorem round2Q_le_hundred (q : ℚ) (h : q ≤ 100) : round2Q q ≤ 100 := by
  unfold round2Q
  have h1 : roundHalfEven (q * 100) ≤ (10000 : ℤ) :=
    roundHalfEven_le _ 10000 (by push_cast; linarith)
  rw [div_le_iff₀ (by norm_num : (0 : ℚ) < 100)]
  norm_num
  exact_mod_cast h1

/-! ### Claim C6 -/

/-- Claim C6: for all non-negative `up_count` and `down_count`,
`profit_effect = up_count / (up_count + down_count) * 100` (rounded to
two decimals) lies in `[0, 100]`, and when `up_count + down_count = 0`
it is exactly the documented default `50.0`. -/
theorem profitEffect_bounds (up down : ℚ) (hu : 0 ≤ up) (hd : 0 ≤ down) :
    (0 ≤ profitEffect up down ∧ profitEffect up down ≤ 100) ∧
      (up + down = 0 → profitEffect up down = 50) := by
  constructor
  · unfold profitEffect
    split_ifs with h
    · have hx0 : 0 ≤ up / (up + down) * 100 := by positivity
      have hle : up / (up + down) ≤ 1 := by
        rw [div_le_one h]; linarith
      have hx1 : up / (up + down) * 100 ≤ 100 := by nlinarith
      exact ⟨round2Q_nonneg _ hx0, round2Q_le_hundred _ hx1⟩
    · norm_num
  · intro h0
    unfold profitEffect
    split_ifs with h
    · exact absurd (h0 ▸ h) (lt_irrefl 0)
    · rfl

/-- Witness for C6 at the concrete inputs `up = 600, down = 400` (and
the zero case via `up = down = 0`). -/
theorem profitEffect_bounds_witness :
    ((0 : ℚ) ≤ 600) ∧ ((0 : ℚ) ≤ 400) ∧
      ((0 ≤ profitEffect 600 400 ∧ profitEffect 600 400 ≤ 100) ∧
        ((600 : ℚ) + 400 = 0 → profitEffect 600 400 = 50)) ∧
      ((0 : ℚ) + 0 = 0 → profitEffect 0 0 = 50) :=
  ⟨by norm_num, by norm_num,
    profitEffect_bounds 600 400 (by norm_num) (by norm_num),
    (profitEffect_bounds 0 0 (by norm_num) (by norm_num)).2⟩


/-! ### Claim C8: the cleanup sweep -/

/-- A filename cannot simultaneously match the hourly and the daily
pattern: in an hourly match the character eight digits before `.pkl` is
a digit, while a daily match requires an underscore there. -/
theorem matchHourly_some_matchDaily_none (f : String) (b : String)
    (h : matchHourly f = some b) : matchDaily f = none := by
  unfold matchHourly matchDaily matchDigitsSuffix at *
  by_cases h4 : (f.data.reverse).take 4 = ['l', 'k', 'p', '.']
  · simp only [h4, if_true] at h ⊢
    by_cases h10 : ((f.data.reverse.drop 4).take 10).length = 10 ∧
        ((f.data.reverse.drop 4).take 10).all Char.isDigit = true ∧
        ((f.data.reverse.drop 4).drop 10).head? = some '_'
    · obtain ⟨hlen, hdig, _⟩ := h10
      rw [if_neg]
      rintro ⟨-, -, hund8⟩
      rw [List.head?_drop] at hund8
      have htk : ((f.data.reverse.drop 4).take 10)[8]? = some '_' := by
        rw [List.getElem?_take]
        simpa using hund8
      have hmem : '_' ∈ (f.data.reverse.drop 4).take 10 := List.getElem?_mem htk
      have hd := (List.all_eq_true.mp hdig) _ hmem
      simp [Char.isDigit] at hd
    · rw [if_neg h10] at h
      exact absurd h (by simp)
  · simp only [h4, if_false] at h
    exact absurd h (by simp)

/-- The per-file removal decision of `clean_old_cache`, characterized:
a file is removed exactly when it is not a base entry and it encodes a
bucket (hourly or daily) different from the current one. -/
theorem shouldRemoveCache_iff (now : DT) (f : String) :
    shouldRemoveCache now f = true ↔
      isBaseFile f = false ∧
        ((∃ b, matchHourly f = some b ∧ b ≠ timeStrHourly now) ∨
         (∃ d, matchDaily f = some d ∧ d ≠ timeStrDaily now)) := by
  unfold shouldRemoveCache
  by_cases hb : isBaseFile f
  · simp [hb]
  · simp only [Bool.not_eq_true] at hb
    simp only [hb, Bool.false_eq_true, if_false, eq_self_iff_true, true_and]
    cases hh : matchHourly f with
    | some b =>
      have hd := matchHourly_some_matchDaily_none f b hh
      by_cases hbe : b = timeStrHourly now
      · simp [hd, hbe]
      · simp [hbe, hh]
    | none =>
      cases hd : matchDaily f with
      | some d =>
        by_cases hde : d = timeStrDaily now
        · simp [hd, hde]
        · simp [hd, hde, hh]
      | none => simp [hd, hh]

/-- Claim C8: for every state of the cache directory, `clean_old_cache`
removes exactly those non-base entries whose encoded bucket differs
from the current hourly or daily bucket, never removes a base entry,
and is idempotent within one bucket. -/
theorem cleanOldCache_removes_exactly_stale (now : DT) (files : List String)
    (f : String) :
    (f ∈ cleanOldCache now files ↔ f ∈ files ∧
      ¬(isBaseFile f = false ∧
        ((∃ b, matchHourly f = some b ∧ b ≠ timeStrHourly now) ∨
         (∃ d, matchDaily f = some d ∧ d ≠ timeStrDaily now)))) ∧
    (isBaseFile f = true → f ∈ files → f ∈ cleanOldCache now files) ∧
    cleanOldCache now (cleanOldCache now files) = cleanOldCache now files := by
  have h1 := shouldRemoveCache_iff now f
  refine ⟨?_, ?_, ?_⟩
  · unfold cleanOldCache
    rw [List.mem_filter]
    constructor
    · rintro ⟨hm, hs⟩
      refine ⟨hm, fun hA => ?_⟩
      rw [← h1] at hA
      rw [hA] at hs
      exact absurd hs (by decide)
    · rintro ⟨hm, hn⟩
      refine ⟨hm, ?_⟩
      cases hs : shouldRemoveCache now f with
      | false => rfl
      | true => exact absurd (h1.mp hs) hn
  · intro hb hm
    unfold cleanOldCache
    rw [List.mem_filter]
    refine ⟨hm, ?_⟩
    unfold shouldRemoveCache
    rw [hb]
    rfl
  · unfold cleanOldCache
    exact List.filter_eq_self.mpr
      (fun a ha => List.of_mem_filter (p := fun g => !shouldRemoveCache now g) ha)

/-- Witness for C8 on a concrete directory: the base file survives (via
the theorem), the entry of the current hourly bucket and an unbucketed
file survive, and the stale hourly and daily entries are removed. -/
theorem cleanOldCache_removes_exactly_stale_witness :
    (isBaseFile "sh_index_base.pkl" = true) ∧
    ("sh_index_base.pkl" ∈
      ["sh_index_base.pkl", "market_activity__2024010209.pkl",
       "market_activity__2024010208.pkl", "congestion__20240101.pkl",
       "congestion__20240102.pkl", "notes.pkl"]) ∧
    ("sh_index_base.pkl" ∈ cleanOldCache ⟨2024, 1, 2, 9⟩
      ["sh_index_base.pkl", "market_activity__2024010209.pkl",
       "market_activity__2024010208.pkl", "congestion__20240101.pkl",
       "congestion__20240102.pkl", "notes.pkl"]) ∧
    cleanOldCache ⟨2024, 1, 2, 9⟩
      ["sh_index_base.pkl", "market_activity__2024010209.pkl",
       "market_activity__2024010208.pkl", "congestion__20240101.pkl",
       "congestion__20240102.pkl", "notes.pkl"] =
      ["sh_index_base.pkl", "market_activity__2024010209.pkl",
       "congestion__20240102.pkl", "notes.pkl"] :=
  ⟨by decide, by decide,
    (cleanOldCache_removes_exactly_stale ⟨2024, 1, 2, 9⟩
      ["sh_index_base.pkl", "market_activity__2024010209.pkl",
       "market_activity__2024010208.pkl", "congestion__20240101.pkl",
       "congestion__20240102.pkl", "notes.pkl"] "sh_index_base.pkl").2.1
      (by decide) (by decide),
    by decide⟩

/-! ### Claims C4, C10, C3: the cache store -/

theorem string_data_inj {s t : String} (h : s.data = t.data) : s = t := by
  cases s; cases t; exact congrArg String.mk h

/-- Two cache file paths that share filename and parameters but carry
different bucket strings are different keys. -/
theorem cacheFilepath_bucket_inj (filename params b1 b2 : String)
    (h : cacheFilepath filename params b1 = cacheFilepath filename params b2) :
    b1 = b2 := by
  unfold cacheFilepath uniqueFilename at h
  have hd := congrArg String.data h
  simp only [String.data_append, List.append_assoc] at hd
  have e1 := List.append_cancel_left hd
  have e2 := List.append_cancel_left e1
  have e3 := List.append_cancel_left e2
  have e4 := List.append_cancel_left e3
  have e5 := List.append_cancel_left e4
  exact string_data_inj (List.append_cancel_right e5)

/-- Claim C4: for every logical name and parameter tuple, a call whose
bucket already has a matching cache entry returns that entry without
invoking the producer, and for two distinct buckets each call invokes
the producer independently — the result cached under the first bucket
is never returned for a call in the second. -/
theorem cacheData_bucket_isolation {α : Type} (emptyVal : α) (filename : String)
    (args : List String) (kwargs : List (String × String)) (freq : Freq)
    (t1 t2 : DT) (s0 : CacheState α) (v T1 T2 : α)
    (hne : bucketStr freq t1 ≠ bucketStr freq t2) :
    (List.lookup (cacheFilepath filename (paramsStr args kwargs) (bucketStr freq t1))
        s0.mem = some v →
      ∀ p, cacheData emptyVal filename args kwargs freq t1 p s0 = ⟨v, s0, false⟩) ∧
    (List.lookup (cacheFilepath filename (paramsStr args kwargs) (bucketStr freq t1))
        s0.mem = none →
     List.lookup (cacheFilepath filename (paramsStr args kwargs) (bucketStr freq t1))
        s0.disk = none →
     List.lookup (cacheFilepath filename (paramsStr args kwargs) (bucketStr freq t2))
        s0.mem = none →
     List.lookup (cacheFilepath filename (paramsStr args kwargs) (bucketStr freq t2))
        s0.disk = none →
      (cacheData emptyVal filename args kwargs freq t1 (.ok T1) s0).invoked = true ∧
      (cacheData emptyVal filename args kwargs freq t1 (.ok T1) s0).value = T1 ∧
      (cacheData emptyVal filename args kwargs freq t2 (.ok T2)
        (cacheData emptyVal filename args kwargs freq t1 (.ok T1) s0).state).invoked
        = true ∧
      (cacheData emptyVal filename args kwargs freq t2 (.ok T2)
        (cacheData emptyVal filename args kwargs freq t1 (.ok T1) s0).state).value
        = T2) := by
  have hfp : cacheFilepath filename (paramsStr args kwargs) (bucketStr freq t2) ≠
      cacheFilepath filename (paramsStr args kwargs) (bucketStr freq t1) := by
    intro h
    exact hne (cacheFilepath_bucket_inj _ _ _ _ h.symm)
  constructor
  · intro hmem p
    unfold cacheData cacheDataAt
    rw [hmem]
  · intro hm1 hd1 hm2 hd2
    have hc1 : cacheData emptyVal filename args kwargs freq t1 (.ok T1) s0 =
        ⟨T1,
          ⟨(cacheFilepath filename (paramsStr args kwargs) (bucketStr freq t1), T1)
              :: s0.mem,
            (cacheFilepath filename (paramsStr args kwargs) (bucketStr freq t1), T1)
              :: s0.disk⟩,
          true⟩ := by
      unfold cacheData cacheDataAt
      rw [hm1, hd1]
    rw [hc1]
    have hbeq : ((cacheFilepath filename (paramsStr args kwargs) (bucketStr freq t2)
        == cacheFilepath filename (paramsStr args kwargs) (bucketStr freq t1)))
        = false := beq_eq_false_iff_ne.mpr hfp
    have hc2 : cacheData emptyVal filename args kwargs freq t2 (.ok T2)
        ⟨(cacheFilepath filename (paramsStr args kwargs) (bucketStr freq t1), T1)
            :: s0.mem,
          (cacheFilepath filename (paramsStr args kwargs) (bucketStr freq t1), T1)
            :: s0.disk⟩ =
        ⟨T2,
          ⟨(cacheFilepath filename (paramsStr args kwargs) (bucketStr freq t2), T2)
              :: (cacheFilepath filename (paramsStr args kwargs) (bucketStr freq t1), T1)
              :: s0.mem,
            (cacheFilepath filename (paramsStr args kwargs) (bucketStr freq t2), T2)
              :: (cacheFilepath filename (paramsStr args kwargs) (bucketStr freq t1), T1)
              :: s0.disk⟩,
          true⟩ := by
      unfold cacheData cacheDataAt
      simp only [List.lookup, hbeq, hm2, hd2]
    rw [hc2]
    exact ⟨rfl, rfl, rfl, rfl⟩

/-- Witness for C4: a concrete hit in the 09:00 hourly bucket is served
without invoking the producer, and with an initially empty cache the
09:00 and 10:00 buckets each invoke the producer and each return their
own producer's table. -/
theorem cacheData_bucket_isolation_witness :
    (bucketStr .hourly ⟨2024, 1, 2, 9⟩ ≠ bucketStr .hourly ⟨2024, 1, 2, 10⟩) ∧
    (cacheData Table.empty "market_activity" [] [] .hourly ⟨2024, 1, 2, 9⟩ (.error ())
        ⟨[(cacheFilepath "market_activity" (paramsStr [] [])
            (bucketStr .hourly ⟨2024, 1, 2, 9⟩), Table.mk ["a"] [])], []⟩ =
      ⟨Table.mk ["a"] [],
        ⟨[(cacheFilepath "market_activity" (paramsStr [] [])
            (bucketStr .hourly ⟨2024, 1, 2, 9⟩), Table.mk ["a"] [])], []⟩, false⟩) ∧
    ((cacheData Table.empty "market_activity" [] [] .hourly ⟨2024, 1, 2, 9⟩
        (.ok (Table.mk ["t1"] [])) ⟨[], []⟩).invoked = true ∧
      (cacheData Table.empty "market_activity" [] [] .hourly ⟨2024, 1, 2, 9⟩
        (.ok (Table.mk ["t1"] [])) ⟨[], []⟩).value = Table.mk ["t1"] [] ∧
      (cacheData Table.empty "market_activity" [] [] .hourly ⟨2024, 1, 2, 10⟩
        (.ok (Table.mk ["t2"] []))
        (cacheData Table.empty "market_activity" [] [] .hourly ⟨2024, 1, 2, 9⟩
          (.ok (Table.mk ["t1"] [])) ⟨[], []⟩).state).invoked = true ∧
      (cacheData Table.empty "market_activity" [] [] .hourly ⟨2024, 1, 2, 10⟩
        (.ok (Table.mk ["t2"] []))
        (cacheData Table.empty "market_activity" [] [] .hourly ⟨2024, 1, 2, 9⟩
          (.ok (Table.mk ["t1"] [])) ⟨[], []⟩).state).value = Table.mk ["t2"] []) :=
  ⟨by decide,
    (cacheData_bucket_isolation Table.empty "market_activity" [] [] .hourly
      ⟨2024, 1, 2, 9⟩ ⟨2024, 1, 2, 10⟩
      ⟨[(cacheFilepath "market_activity" (paramsStr [] [])
          (bucketStr .hourly ⟨2024, 1, 2, 9⟩), Table.mk ["a"] [])], []⟩
      (Table.mk ["a"] []) Table.empty Table.empty (by decide)).1 (by decide) (.error ()),
    (cacheData_bucket_isolation Table.empty "market_activity" [] [] .hourly
      ⟨2024, 1, 2, 9⟩ ⟨2024, 1, 2, 10⟩ ⟨[], []⟩
      Table.empty (Table.mk ["t1"] []) (Table.mk ["t2"] []) (by decide)).2
      rfl rfl rfl rfl⟩

/-- Claim C10: when the producer raises, `cache_data` writes nothing to
either the in-memory dict or the disk tier — the state is returned
unchanged — so an identical later call reaches the producer again (and a
then-successful producer's table is returned, not a cached empty one). -/
theorem cacheData_error_state_unchanged {α : Type} (emptyVal : α)
    (filename : String) (args : List String) (kwargs : List (String × String))
    (freq : Freq) (now : DT) (s : CacheState α) (T : α)
    (hm : List.lookup (cacheFilepath filename (paramsStr args kwargs)
      (bucketStr freq now)) s.mem = none)
    (hd : List.lookup (cacheFilepath filename (paramsStr args kwargs)
      (bucketStr freq now)) s.disk = none) :
    cacheData emptyVal filename args kwargs freq now (.error ()) s =
      ⟨emptyVal, s, true⟩ ∧
    (cacheData emptyVal filename args kwargs freq now (.ok T)
      (cacheData emptyVal filename args kwargs freq now (.error ()) s).state).invoked
      = true ∧
    (cacheData emptyVal filename args kwargs freq now (.ok T)
      (cacheData emptyVal filename args kwargs freq now (.error ()) s).state).value
      = T := by
  have h1 : cacheData emptyVal filename args kwargs freq now (.error ()) s =
      ⟨emptyVal, s, true⟩ := by
    unfold cacheData cacheDataAt
    rw [hm, hd]
  have h2 : cacheData emptyVal filename args kwargs freq now (.ok T)
      (cacheData emptyVal filename args kwargs freq now (.error ()) s).state =
      ⟨T,
        ⟨(cacheFilepath filename (paramsStr args kwargs) (bucketStr freq now), T)
            :: s.mem,
          (cacheFilepath filename (paramsStr args kwargs) (bucketStr freq now), T)
            :: s.disk⟩,
        true⟩ := by
    rw [h1]
    unfold cacheData cacheDataAt
    rw [hm, hd]
  exact ⟨h1, by rw [h2], by rw [h2]⟩

/-- Witness for C10 at a concrete key and the empty cache state. -/
theorem cacheData_error_state_unchanged_witness :
    (cacheData Table.empty "congestion" [] [] .daily ⟨2024, 1, 2, 9⟩ (.error ())
        ⟨[], []⟩ = ⟨Table.empty, ⟨[], []⟩, true⟩) ∧
    (cacheData Table.empty "congestion" [] [] .daily ⟨2024, 1, 2, 9⟩
      (.ok (Table.mk ["c"] []))
      (cacheData Table.empty "congestion" [] [] .daily ⟨2024, 1, 2, 9⟩ (.error ())
        ⟨[], []⟩).state).invoked = true ∧
    (cacheData Table.empty "congestion" [] [] .daily ⟨2024, 1, 2, 9⟩
      (.ok (Table.mk ["c"] []))
      (cacheData Table.empty "congestion" [] [] .daily ⟨2024, 1, 2, 9⟩ (.error ())
        ⟨[], []⟩).state).value = Table.mk ["c"] [] :=
  cacheData_error_state_unchanged Table.empty "congestion" [] [] .daily
    ⟨2024, 1, 2, 9⟩ ⟨[], []⟩ (Table.mk ["c"] []) rfl rfl

/-- Claim C3 (amended): when the producer raises and no entry exists for
the key, `cache_data` and `cache_pkl` swallow the exception and return
the *fully* empty frame `pd.DataFrame()` — no rows and, in particular,
no columns at all. -/
theorem cacheData_error_returns_bare_empty (filename : String)
    (args : List String) (kwargs : List (String × String)) (freq : Freq)
    (now : DT) (s : CacheState Table) (name : String)
    (disk : List (String × Table))
    (hm : List.lookup (cacheFilepath filename (paramsStr args kwargs)
      (bucketStr freq now)) s.mem = none)
    (hd : List.lookup (cacheFilepath filename (paramsStr args kwargs)
      (bucketStr freq now)) s.disk = none)
    (hp : List.lookup ("cache/" ++ name ++ "_" ++ timeStrDaily now ++ ".pkl")
      disk = none) :
    (cacheData Table.empty filename args kwargs freq now (.error ()) s).value
      = Table.empty ∧
    (cachePkl Table.empty name now (.error ()) disk).1 = Table.empty ∧
    Table.empty.cols = [] := by
  refine ⟨?_, ?_, rfl⟩
  · unfold cacheData cacheDataAt
    rw [hm, hd]
  · unfold cachePkl
    rw [hp]

/-- Witness for the amended C3 at concrete keys and empty caches. -/
theorem cacheData_error_returns_bare_empty_witness :
    (cacheData Table.empty "bond_etf" [] [("symbol", "511260")] .daily
      ⟨2024, 1, 2, 9⟩ (.error ()) ⟨[], []⟩).value = Table.empty ∧
    (cachePkl Table.empty "index_sh" ⟨2024, 1, 2, 9⟩ (.error ()) []).1
      = Table.empty ∧
    Table.empty.cols = [] :=
  cacheData_error_returns_bare_empty "bond_etf" [] [("symbol", "511260")] .daily
    ⟨2024, 1, 2, 9⟩ ⟨[], []⟩ "index_sh" [] rfl rfl rfl

/-- Counterexample for C3 as stated: the frame returned on producer
failure carries no columns at all, hence not the schema-appropriate
columns of the cached data set (for the index series those are
`['day', 'close', 'amount']`, the columns its own adapter uses for its
schema-carrying empty frame). -/
theorem cachePkl_error_no_schema_columns :
    (cachePkl Table.empty "index_sh" ⟨2024, 1, 2, 9⟩ (.error ()) []).1.cols = [] ∧
    ([] : List String) ≠ indexTableSchema :=
  ⟨rfl, by decide⟩

/-! ### Claim C5: incremental extension of base series -/

theorem mem_of_mem_keepLastFilter (key : Row → Option ℚ) {l : List Row} {r : Row}
    (h : r ∈ keepLastFilter key l) : r ∈ l := by
  induction l with
  | nil => simp [keepLastFilter] at h
  | cons a rest ih =>
    rw [keepLastFilter] at h
    split_ifs at h with hany
    · exact List.mem_cons_of_mem _ (ih h)
    · rcases List.mem_cons.mp h with rfl | hmem
      · exact List.mem_cons_self _ _
      · exact List.mem_cons_of_mem _ (ih hmem)

/-- After `drop_duplicates(keep='last')` no two remaining rows share a
key. -/
theorem keepLastFilter_pairwise_ne (key : Row → Option ℚ) (l : List Row) :
    (keepLastFilter key l).Pairwise (fun r1 r2 => key r1 ≠ key r2) := by
  induction l with
  | nil => simp [keepLastFilter]
  | cons a rest ih =>
    rw [keepLastFilter]
    split_ifs with hany
    · exact ih
    · refine List.Pairwise.cons ?_ ih
      intro b hb hkey
      rw [List.any_eq_true] at hany
      exact hany ⟨b, mem_of_mem_keepLastFilter key hb, by simp [hkey]⟩

/-- Every key occurring before `drop_duplicates(keep='last')` still
occurs afterwards. -/
theorem keepLastFilter_key_surj (key : Row → Option ℚ) (l : List Row) (k : Option ℚ)
    (h : ∃ r ∈ l, key r = k) : ∃ r ∈ keepLastFilter key l, key r = k := by
  induction l with
  | nil => simp at h
  | cons a rest ih =>
    rw [keepLastFilter]
    split_ifs with hany
    · obtain ⟨r0, hr0, hk⟩ := h
      rcases List.mem_cons.mp hr0 with rfl | hmem
      · rw [List.any_eq_true] at hany
        obtain ⟨r2, hr2, he⟩ := hany
        rw [decide_eq_true_eq] at he
        exact ih ⟨r2, hr2, he.trans hk⟩
      · exact ih ⟨r0, hmem, hk⟩
    · obtain ⟨r0, hr0, hk⟩ := h
      rcases List.mem_cons.mp hr0 with rfl | hmem
      · exact ⟨r0, List.mem_cons_self _ _, hk⟩
      · obtain ⟨r1, hr1, hk1⟩ := ih ⟨r0, hmem, hk⟩
        exact ⟨r1, List.mem_cons_of_mem _ hr1, hk1⟩

theorem listMaxQ_some_of_mem {l : List ℚ} {a : ℚ} (ha : a ∈ l) :
    ∃ m, listMaxQ l = some m ∧ a ≤ m := by
  induction l with
  | nil => simp at ha
  | cons b t ih =>
    rcases List.mem_cons.mp ha with rfl | hmem
    · cases ht : listMaxQ t with
      | none => exact ⟨a, by simp [listMaxQ, ht], le_refl a⟩
      | some mt => exact ⟨max a mt, by simp [listMaxQ, ht], le_max_left a mt⟩
    · obtain ⟨mt, hmt, hle⟩ := ih hmem
      exact ⟨max b mt, by simp [listMaxQ, hmt], hle.trans (le_max_right b mt)⟩

theorem listMaxQ_mem {l : List ℚ} {m : ℚ} (h : listMaxQ l = some m) : m ∈ l := by
  induction l generalizing m with
  | nil => simp [listMaxQ] at h
  | cons b t ih =>
    rw [listMaxQ] at h
    cases ht : listMaxQ t with
    | none =>
      rw [ht] at h
      injection h with h
      simp [← h]
    | some mt =>
      rw [ht] at h
      injection h with h
      rcases max_choice b mt with hc | hc
      · rw [hc] at h
        simp [← h]
      · rw [hc] at h
        exact List.mem_cons_of_mem _ (h ▸ ih ht)

/-- Claim C5: for an existing base whose maximum date is `m`, a due
extension (`m + 1 ≤ today`) behaves as specified: on a successful
non-empty fetch the merged result is returned and persisted, it has no
two rows with the same date key, and its maximum date is `≥ m`; on a
fetch failure the base is returned unchanged and nothing is written. -/
theorem getIncremental_extension_spec (dfBase dfNew : Table) (today : ℚ)
    (dateCol : String) (producer : ℚ → Except Unit Table) (m : ℚ)
    (hmax : listMaxQ (dfBase.rows.filterMap (fun r => r.get dateCol)) = some m)
    (hstart : m + 1 ≤ today) :
    (producer (m + 1) = .ok dfNew → dfNew.rows ≠ [] →
      getIncrementalDailyData (some dfBase) today dateCol producer =
        .ok
          (⟨dfBase.cols,
              keepLastFilter (fun r => r.get dateCol) (dfBase.rows ++ dfNew.rows)⟩,
            some ⟨dfBase.cols,
              keepLastFilter (fun r => r.get dateCol) (dfBase.rows ++ dfNew.rows)⟩,
            true) ∧
      (keepLastFilter (fun r => r.get dateCol) (dfBase.rows ++ dfNew.rows)).Pairwise
        (fun r1 r2 => r1.get dateCol ≠ r2.get dateCol) ∧
      (∃ m2,
        listMaxQ ((keepLastFilter (fun r => r.get dateCol)
          (dfBase.rows ++ dfNew.rows)).filterMap (fun r => r.get dateCol)) = some m2 ∧
        m ≤ m2)) ∧
    (producer (m + 1) = .error () →
      getIncrementalDailyData (some dfBase) today dateCol producer =
        .ok (dfBase, some dfBase, false)) := by
  constructor
  · intro hok hne
    refine ⟨?_, keepLastFilter_pairwise_ne _ _, ?_⟩
    · unfold getIncrementalDailyData
      dsimp only
      rw [hmax]
      dsimp only
      rw [if_pos hstart, hok]
      dsimp only
      rw [if_neg (fun h => hne (by simpa using h))]
    · have hm_mem : m ∈ dfBase.rows.filterMap (fun r => r.get dateCol) :=
        listMaxQ_mem hmax
      obtain ⟨r0, hr0, hk0⟩ := List.mem_filterMap.mp hm_mem
      have hr0' : r0 ∈ dfBase.rows ++ dfNew.rows := List.mem_append_left _ hr0
      obtain ⟨r1, hr1, hk1⟩ :=
        keepLastFilter_key_surj (fun r => r.get dateCol) (dfBase.rows ++ dfNew.rows)
          (some m) ⟨r0, hr0', hk0⟩
      have hm_mem' : m ∈ (keepLastFilter (fun r => r.get dateCol)
          (dfBase.rows ++ dfNew.rows)).filterMap (fun r => r.get dateCol) :=
        List.mem_filterMap.mpr ⟨r1, hr1, hk1⟩
      exact listMaxQ_some_of_mem hm_mem'
  · intro herr
    unfold getIncrementalDailyData
    dsimp only
    rw [hmax]
    dsimp only
    rw [if_pos hstart, herr]

/-- Witness for C5: a concrete two-row base with maximum date 2 is
extended by a producer yielding one new row of date 3 (and, the failure
side, a producer that raises). -/
theorem getIncremental_extension_spec_witness :
    (getIncrementalDailyData
        (some ⟨["日期", "close"], [[("日期", 1), ("close", 10)], [("日期", 2), ("close", 11)]]⟩)
        5 "日期" (fun _ => .ok ⟨["日期", "close"], [[("日期", 3), ("close", 12)]]⟩) =
      .ok
        (⟨["日期", "close"],
            keepLastFilter (fun r => r.get "日期")
              ([[("日期", 1), ("close", 10)], [("日期", 2), ("close", 11)]] ++
                [[("日期", 3), ("close", 12)]])⟩,
          some ⟨["日期", "close"],
            keepLastFilter (fun r => r.get "日期")
              ([[("日期", 1), ("close", 10)], [("日期", 2), ("close", 11)]] ++
                [[("日期", 3), ("close", 12)]])⟩,
          true) ∧
      (keepLastFilter (fun r => r.get "日期")
        ([[("日期", 1), ("close", 10)], [("日期", 2), ("close", 11)]] ++
          [[("日期", 3), ("close", 12)]])).Pairwise
        (fun r1 r2 => r1.get "日期" ≠ r2.get "日期") ∧
      (∃ m2,
        listMaxQ ((keepLastFilter (fun r => r.get "日期")
          ([[("日期", 1), ("close", 10)], [("日期", 2), ("close", 11)]] ++
            [[("日期", 3), ("close", 12)]])).filterMap (fun r => r.get "日期")) = some m2 ∧
        (2 : ℚ) ≤ m2)) ∧
    (getIncrementalDailyData
        (some ⟨["日期", "close"], [[("日期", 1), ("close", 10)], [("日期", 2), ("close", 11)]]⟩)
        5 "日期" (fun _ => .error ()) =
      .ok
        (⟨["日期", "close"], [[("日期", 1), ("close", 10)], [("日期", 2), ("close", 11)]]⟩,
          some ⟨["日期", "close"], [[("日期", 1), ("close", 10)], [("日期", 2), ("close", 11)]]⟩,
          false)) :=
  ⟨(getIncremental_extension_spec
      ⟨["日期", "close"], [[("日期", 1), ("close", 10)], [("日期", 2), ("close", 11)]]⟩
      ⟨["日期", "close"], [[("日期", 3), ("close", 12)]]⟩ 5 "日期"
      (fun _ => .ok ⟨["日期", "close"], [[("日期", 3), ("close", 12)]]⟩) 2
      (by decide) (by norm_num)).1 rfl (by decide),
    (getIncremental_extension_spec
      ⟨["日期", "close"], [[("日期", 1), ("close", 10)], [("日期", 2), ("close", 11)]]⟩
      Table.empty 5 "日期" (fun _ => .error ()) 2
      (by decide) (by norm_num)).2 rfl⟩

/-! ### Claim C7: the turnover scenario -/

/-- `analyze_market_liquidity` in POST_MARKET mode, evaluated on index
tables presented as (prefix ++ [yesterday, today]) amount columns: the
full result record. -/
theorem analyzeMarketLiquidityCore_post_eval (mff : List MffRow) (lf : MffRow)
    (sh0 sz0 : List ℚ) (y1 t1 y2 t2 : ℚ) (nowMin : ℚ)
    (hmne : mff ≠ []) (hlf : mff.getLast? = some lf) :
    analyzeMarketLiquidityCore (some mff) (some (sh0 ++ [y1, t1]))
      (some (sz0 ++ [y2, t2])) .POST_MARKET nowMin =
    .ok
      { totalVolume := formatFixed2 ((t1 + t2) / 100000000) ++ "亿元"
        estimatedTurnoverStr := ""
        volumeLevel :=
          if (t1 + t2) / 100000000 >
              (meanQ (slice5Before (sh0 ++ [y1, t1])) +
                meanQ (slice5Before (sz0 ++ [y2, t2]))) / 100000000 then
            "高于5日均量"
          else "低于5日均量"
        volumeChangeDesc :=
          if (t1 + t2) / 100000000 - (y1 + y2) / 100000000 < 0 then
            "缩量 " ++ formatFixed2 |(t1 + t2) / 100000000 - (y1 + y2) / 100000000| ++ "亿"
          else
            "放量 " ++ formatFixed2 ((t1 + t2) / 100000000 - (y1 + y2) / 100000000) ++ "亿"
        mainNetInflow := formatFixed2 (lf.mainNet / 100000000) ++ "亿元"
        retailNetInflow := formatFixed2 (lf.retailNet / 100000000) ++ "亿元"
        inflowPercentage :=
          if (t1 + t2) / 100000000 > 0 then
            lf.mainNet / 100000000 / ((t1 + t2) / 100000000) * 100
          else 0
        volumeQualitativeLevel :=
          if (t1 + t2) / 100000000 < 10000 * (7 / 10) then "地量水平"
          else if (t1 + t2) / 100000000 ≤ 10000 * (3 / 2) then "平量水平"
          else if (t1 + t2) / 100000000 ≤ 10000 * (5 / 2) then "天量水平"
          else "巨量水平" } := by
  have hsh : (sh0 ++ [y1, t1]).getLast? = some t1 := by
    rw [show sh0 ++ [y1, t1] = (sh0 ++ [y1]) ++ [t1] by simp]
    exact List.getLast?_concat _
  have hsz : (sz0 ++ [y2, t2]).getLast? = some t2 := by
    rw [show sz0 ++ [y2, t2] = (sz0 ++ [y2]) ++ [t2] by simp]
    exact List.getLast?_concat _
  have hshp : (sh0 ++ [y1, t1]).dropLast.getLast? = some y1 := by
    rw [show sh0 ++ [y1, t1] = (sh0 ++ [y1]) ++ [t1] by simp, List.dropLast_concat]
    exact List.getLast?_concat _
  have hszp : (sz0 ++ [y2, t2]).dropLast.getLast? = some y2 := by
    rw [show sz0 ++ [y2, t2] = (sz0 ++ [y2]) ++ [t2] by simp, List.dropLast_concat]
    exact List.getLast?_concat _
  have hcond : (mff.isEmpty || (sh0 ++ [y1, t1]).isEmpty ||
      (sz0 ++ [y2, t2]).isEmpty) = false := by
    simp [hmne]
  simp only [analyzeMarketLiquidityCore, hcond, Bool.false_eq_true, if_false,
    hsh, hsz, hshp, hszp, hlf, volumeAnalysisTurnover]
  norm_num

/-- Claim C7 (amended): with two index tables of ≥ 6 amount rows whose
last-row amounts sum to 12000×1e8 and second-to-last amounts sum to
9000×1e8, the POST_MARKET run classifies the day as "平量水平" (since
7000 < 12000 ≤ 15000) and renders `volume_change_desc` as exactly
"放量 3000.00亿" (the `:.2f` format, not "放量 3000亿"); outside
POST_MARKET the classified value is the extrapolation
`observed * (240 / elapsed)` only once the two-session trading clock has
elapsed minutes > 0 (before 09:30 the observed value is used as is). -/
theorem turnover_scenario_amended (mff : List MffRow) (sh0 sz0 : List ℚ)
    (y1 t1 y2 t2 nowMin : ℚ)
    (hmne : mff ≠ []) (hsh6 : sh0.length ≥ 4) (hsz6 : sz0.length ≥ 4)
    (ht : t1 + t2 = 1200000000000) (hy : y1 + y2 = 900000000000) :
    ((analyzeMarketLiquidity (some mff) (some (sh0 ++ [y1, t1]))
        (some (sz0 ++ [y2, t2])) .POST_MARKET nowMin).map
      (fun x => x.volumeQualitativeLevel)) = some "平量水平" ∧
    ((analyzeMarketLiquidity (some mff) (some (sh0 ++ [y1, t1]))
        (some (sz0 ++ [y2, t2])) .POST_MARKET nowMin).map
      (fun x => x.volumeChangeDesc)) = some "放量 3000.00亿" ∧
    (∀ (total : ℚ) (mode : RunMode) (nm : ℚ), mode ≠ .POST_MARKET →
      elapsedTradingMinutes nm > 0 →
      volumeAnalysisTurnover total mode nm = total * (240 / elapsedTradingMinutes nm)) := by
  obtain ⟨lf, hlf⟩ : ∃ lf, mff.getLast? = some lf := by
    cases hE : mff.getLast? with
    | none => exact absurd (List.getLast?_eq_none_iff.mp hE) hmne
    | some lf => exact ⟨lf, rfl⟩
  have hcore := analyzeMarketLiquidityCore_post_eval mff lf sh0 sz0 y1 t1 y2 t2
    nowMin hmne hlf
  rw [ht, hy] at hcore
  refine ⟨?_, ?_, ?_⟩
  · simp only [analyzeMarketLiquidity, hcore, Option.map_some']
    decide
  · simp only [analyzeMarketLiquidity, hcore, Option.map_some']
    decide
  · intro total mode nm hmode helapsed
    unfold volumeAnalysisTurnover
    rw [if_pos ⟨hmode, helapsed⟩]

/-- Witness for the amended C7 at concrete six-row tables: today's
amounts 7000×1e8 + 5000×1e8 = 12000×1e8, yesterday's
4000×1e8 + 5000×1e8 = 9000×1e8; the extrapolation clause is applied at
10:00 (elapsed 30 minutes) in LIVE_MORNING mode. -/
theorem turnover_scenario_amended_witness :
    ((analyzeMarketLiquidity (some [⟨0, 0⟩])
        (some ([100000000000, 100000000000, 100000000000, 100000000000] ++
          [400000000000, 700000000000]))
        (some ([100000000000, 100000000000, 100000000000, 100000000000] ++
          [500000000000, 500000000000])) .POST_MARKET 960).map
      (fun x => x.volumeQualitativeLevel)) = some "平量水平" ∧
    ((analyzeMarketLiquidity (some [⟨0, 0⟩])
        (some ([100000000000, 100000000000, 100000000000, 100000000000] ++
          [400000000000, 700000000000]))
        (some ([100000000000, 100000000000, 100000000000, 100000000000] ++
          [500000000000, 500000000000])) .POST_MARKET 960).map
      (fun x => x.volumeChangeDesc)) = some "放量 3000.00亿" ∧
    volumeAnalysisTurnover 12000 .LIVE_MORNING 600 =
      12000 * (240 / elapsedTradingMinutes 600) := by
  have h := turnover_scenario_amended [⟨0, 0⟩]
    [100000000000, 100000000000, 100000000000, 100000000000]
    [100000000000, 100000000000, 100000000000, 100000000000]
    400000000000 700000000000 500000000000 500000000000 960
    (by decide) (by decide) (by decide) (by norm_num) (by norm_num)
  exact ⟨h.1, h.2.1, h.2.2 12000 .LIVE_MORNING 600 (by decide) (by decide)⟩

/-- Counterexample for C7 as stated: the rendered description is
"放量 3000.00亿" (the `:.2f` format), not "放量 3000亿"; and at 09:15 on
a weekday the run mode is LIVE_MORNING (not POST_MARKET) yet the value
is *not* extrapolated — the elapsed trading minutes are 0, the estimate
string stays empty and the classification uses the observed 12000
directly. -/
theorem turnover_scenario_counterexample :
    ((analyzeMarketLiquidity (some [⟨0, 0⟩])
        (some [100000000000, 100000000000, 100000000000, 100000000000,
          400000000000, 700000000000])
        (some [100000000000, 100000000000, 100000000000, 100000000000,
          500000000000, 500000000000]) .POST_MARKET 960).map
      (fun x => x.volumeChangeDesc)) = some "放量 3000.00亿" ∧
    "放量 3000.00亿" ≠ "放量 3000亿" ∧
    runModeOf 9 0 = .LIVE_MORNING ∧
    RunMode.LIVE_MORNING ≠ .POST_MARKET ∧
    elapsedTradingMinutes 555 = 0 ∧
    ((analyzeMarketLiquidity (some [⟨0, 0⟩])
        (some [100000000000, 100000000000, 100000000000, 100000000000,
          400000000000, 700000000000])
        (some [100000000000, 100000000000, 100000000000, 100000000000,
          500000000000, 500000000000]) .LIVE_MORNING 555).map
      (fun x => x.estimatedTurnoverStr)) = some "" ∧
    ((analyzeMarketLiquidity (some [⟨0, 0⟩])
        (some [100000000000, 100000000000, 100000000000, 100000000000,
          400000000000, 700000000000])
        (some [100000000000, 100000000000, 100000000000, 100000000000,
          500000000000, 500000000000]) .LIVE_MORNING 555).map
      (fun x => x.volumeQualitativeLevel)) = some "平量水平" := by
  decide

/-! ### Claim C2: fault isolation of the metrics -/

/-- Counterexample for C2 as stated: `analyze_sector_strength` has no
`try/except`, so with a non-empty 量价齐升 frame that lacks the
`股票代码` column (schema drift of the provider) the `KeyError` raised
at line 438 propagates out of the metric instead of being caught and
the indicator emptied. -/
theorem sectorStrength_uncaught_keyerror :
    analyzeSectorStrengthE
      (some [[("名称", Cell.str "银行"), ("涨跌幅", Cell.num 1),
        ("今日主力净流入-净额", Cell.num 5)]])
      (some [[("代码X", Cell.str "600519")]])
      [("600519", "白酒")] = .error (.keyError "股票代码") := by
  rfl

/-- Claim C2 (amended): the metrics that the source wraps in
`try/except` — among the modelled ones, market liquidity and market
sentiment — catch every exception at the call site and set their
indicator to the explicit empty state, and `analyze_sector_strength`
handles the empty/missing-input case by an early return of the empty
heat map; but that metric has no call-site handler, and any other
exception inside it propagates out of the analysis phase. -/
theorem metrics_caught_at_call_site :
    (∀ (mff? : Option (List MffRow)) (sh? sz? : Option (List ℚ)) (mode : RunMode)
      (nowMin : ℚ) (e : PyErr),
      analyzeMarketLiquidityCore mff? sh? sz? mode nowMin = .error e →
      analyzeMarketLiquidity mff? sh? sz? mode nowMin = none) ∧
    (∀ (a? r? c? : Option TableB) (e : PyErr),
      analyzeMarketSentimentCore a? r? c? = .error e →
      analyzeMarketSentiment a? r? c? = none) ∧
    (∀ (ljqs? : Option TableB) (stockMap : List (String × String)),
      analyzeSectorStrengthE none ljqs? stockMap = .ok []) ∧
    (∀ (ljqs? : Option TableB) (stockMap : List (String × String)),
      analyzeSectorStrengthE (some []) ljqs? stockMap = .ok []) := by
  refine ⟨?_, ?_, ?_, ?_⟩
  · intro mff? sh? sz? mode nowMin e he
    unfold analyzeMarketLiquidity
    rw [he]
  · intro a? r? c? e he
    unfold analyzeMarketSentiment
    rw [he]
  · intro ljqs? stockMap
    rfl
  · intro ljqs? stockMap
    rfl

/-- Witness for the amended C2: with all inputs missing, the liquidity
and sentiment metrics raise internally and their indicators end up
empty, and the sector metric's empty-input early return yields the
empty heat map. -/
theorem metrics_caught_at_call_site_witness :
    (analyzeMarketLiquidityCore none none none .POST_MARKET 0 =
      .error (.valueError "市场资金流或大盘历史行情数据为空")) ∧
    analyzeMarketLiquidity none none none .POST_MARKET 0 = none ∧
    (analyzeMarketSentimentCore none none none =
      .error (.valueError "赚钱效应数据为空")) ∧
    analyzeMarketSentiment none none none = none ∧
    analyzeSectorStrengthE none none [] = .ok [] ∧
    analyzeSectorStrengthE (some []) none [] = .ok [] :=
  ⟨rfl,
    metrics_caught_at_call_site.1 none none none .POST_MARKET 0 _ rfl,
    rfl,
    metrics_caught_at_call_site.2.1 none none none _ rfl,
    metrics_caught_at_call_site.2.2.1 none [],
    metrics_caught_at_call_site.2.2.2 none []⟩

/-! ### Claim C9: placeholders versus omitted sections -/

/-- The analysis state in which every metric failed: each dict is empty,
the AI conclusion is the empty string, heat map and ranking are empty
frames. -/
def emptyAnalysisResult : AnalysisResult :=
  ⟨none, "", none, none, none, none, none, [], []⟩

/-- Membership in any one section gives membership in the whole
rendered report. -/
theorem mem_printReport_of_section (mode : RunMode) (ts : String)
    (r : AnalysisResult) (x : String)
    (h : x ∈ headerSection mode ts ∨ x ∈ stageSection r.marketStage ∨
      x ∈ conclusionSection r.conclusionRaw ∨
      x ∈ marketSection r.intermarket r.liquidity r.turnover r.marginTrading ∨
      x ∈ sentimentSection r.sentiment ∨ x ∈ heatSection r.sectorHeatMap ∨
      x ∈ rankingSection r.finalRanking ∨ x ∈ footerSection) :
    x ∈ printReport mode ts r := by
  unfold printReport
  simp only [List.mem_append]
  tauto

/-- Counterexample for C9 as stated: with the market-stage indicator
unavailable and the heat map empty, the rendered report has no
"market stage" section and no "sector heat" section at all — no line
even mentions them — instead of showing a placeholder there. -/
theorem report_sections_omitted_counterexample :
    emptyAnalysisResult.marketStage = none ∧
    emptyAnalysisResult.sectorHeatMap = [] ∧
    emptyAnalysisResult.finalRanking = [] ∧
    ((printReport .POST_MARKET "" emptyAnalysisResult).any
      (fun l => strHasSubstr "市场阶段" l)) = false ∧
    ((printReport .POST_MARKET "" emptyAnalysisResult).any
      (fun l => strHasSubstr "板块热力" l)) = false ∧
    ((printReport .POST_MARKET "" emptyAnalysisResult).any
      (fun l => strHasSubstr "ETF综合评分" l)) = false := by
  decide

/-- Claim C9 (amended): the always-rendered sections show explicit
placeholders for unavailable indicators — "未能生成AI分析。" for the AI
conclusion and "未知" markers for the intermarket, liquidity, turnover,
margin and sentiment indicators — but the market-stage, sector-heat and
ETF-ranking sections are omitted entirely when their indicator is
empty, with no placeholder (exhibited at the empty analysis state). -/
theorem report_placeholders_amended (mode : RunMode) (ts : String)
    (r : AnalysisResult) :
    (r.conclusionRaw = "" → "未能生成AI分析。" ∈ printReport mode ts r) ∧
    (r.sentiment = none →
      "  - 综合情绪: 【未知】 | 无" ∈ printReport mode ts r) ∧
    (r.intermarket = none →
      "  - 大盘趋势: 【未知】 | 股债关系: 【未知】" ∈ printReport mode ts r) ∧
    (r.liquidity = none →
      "  - 成交量:   【未知】， ()，属于【未知】" ∈ printReport mode ts r) ∧
    (r.turnover = none →
      "  - 换手率:   【未知】，当前市场活跃度【未知】" ∈ printReport mode ts r) ∧
    (r.marginTrading = none →
      "  - 杠杆资金: 两市融资余额【未知】，较前一日【未知】" ∈ printReport mode ts r) ∧
    ("\n一、市场阶段定性" ∉ printReport .POST_MARKET "" emptyAnalysisResult) ∧
    ("\n五、板块热力追踪 (人气+资金)" ∉
      printReport .POST_MARKET "" emptyAnalysisResult) ∧
    ("\n六、ETF综合评分排名 (基于技术面与板块热力)" ∉
      printReport .POST_MARKET "" emptyAnalysisResult) := by
  refine ⟨?_, ?_, ?_, ?_, ?_, ?_, by decide, by decide, by decide⟩
  · intro h
    refine mem_printReport_of_section mode ts r _ (Or.inr (Or.inr (Or.inl ?_)))
    rw [h]
    decide
  · intro h
    refine mem_printReport_of_section mode ts r _
      (Or.inr (Or.inr (Or.inr (Or.inr (Or.inl ?_)))))
    rw [h]
    decide
  · intro h
    refine mem_printReport_of_section mode ts r _ (Or.inr (Or.inr (Or.inr (Or.inl ?_))))
    rw [marketSection, h]
    refine List.mem_cons_of_mem _ (List.mem_cons_of_mem _ (List.mem_cons_self _ _))
  · intro h
    refine mem_printReport_of_section mode ts r _ (Or.inr (Or.inr (Or.inr (Or.inl ?_))))
    rw [marketSection, h]
    refine List.mem_cons_of_mem _ (List.mem_cons_of_mem _ (List.mem_cons_of_mem _
      (List.mem_cons_self _ _)))
  · intro h
    refine mem_printReport_of_section mode ts r _ (Or.inr (Or.inr (Or.inr (Or.inl ?_))))
    rw [marketSection, h]
    refine List.mem_cons_of_mem _ (List.mem_cons_of_mem _ (List.mem_cons_of_mem _
      (List.mem_cons_of_mem _ (List.mem_cons_self _ _))))
  · intro h
    refine mem_printReport_of_section mode ts r _ (Or.inr (Or.inr (Or.inr (Or.inl ?_))))
    rw [marketSection, h]
    refine List.mem_cons_of_mem _ (List.mem_cons_of_mem _ (List.mem_cons_of_mem _
      (List.mem_cons_of_mem _ (List.mem_cons_of_mem _ (List.mem_cons_of_mem _
        (List.mem_cons_self _ _))))))

/-- Witness for the amended C9 at the empty analysis state. -/
theorem report_placeholders_amended_witness :
    "未能生成AI分析。" ∈ printReport .POST_MARKET "" emptyAnalysisResult ∧
    "  - 综合情绪: 【未知】 | 无" ∈ printReport .POST_MARKET "" emptyAnalysisResult ∧
    "  - 大盘趋势: 【未知】 | 股债关系: 【未知】" ∈
      printReport .POST_MARKET "" emptyAnalysisResult ∧
    "  - 成交量:   【未知】， ()，属于【未知】" ∈
      printReport .POST_MARKET "" emptyAnalysisResult ∧
    "  - 换手率:   【未知】，当前市场活跃度【未知】" ∈
      printReport .POST_MARKET "" emptyAnalysisResult ∧
    "  - 杠杆资金: 两市融资余额【未知】，较前一日【未知】" ∈
      printReport .POST_MARKET "" emptyAnalysisResult :=
  ⟨(report_placeholders_amended .POST_MARKET "" emptyAnalysisResult).1 rfl,
    (report_placeholders_amended .POST_MARKET "" emptyAnalysisResult).2.1 rfl,
    (report_placeholders_amended .POST_MARKET "" emptyAnalysisResult).2.2.1 rfl,
    (report_placeholders_amended .POST_MARKET "" emptyAnalysisResult).2.2.2.1 rfl,
    (report_placeholders_amended .POST_MARKET "" emptyAnalysisResult).2.2.2.2.1 rfl,
    (report_placeholders_amended .POST_MARKET "" emptyAnalysisResult).2.2.2.2.2.1 rfl⟩

/-! ### Claim C1: is a report always produced? -/

/-- Claim C1 (amended): `run_analysis` renders a report exactly when
`fetch_data` succeeded and `analyze_sector_strength` did not raise; and
`fetch_data` succeeds exactly when the two direct provider calls (the
market-fund-flow and sector-fund-flow fetches, the acquisition steps not
wrapped in `cache_data`) return without raising — failures of the
cache-wrapped producers only yield empty tables and are not fatal. -/
theorem runAnalysis_report_iff (inp : RunInputs) :
    ((runAnalysis inp).isSome ↔
      ∃ d, fetchData inp = some d ∧
        ∃ heat, analyzeSectorStrengthE (some d.industryFundFlow) (some d.ljqs)
          d.stockMap = .ok heat) ∧
    ((fetchData inp).isSome ↔
      (∃ m, inp.mffFetch = .ok m) ∧ (∃ t, inp.sectorFetch = .ok t)) := by
  constructor
  · unfold runAnalysis
    cases hf : fetchData inp with
    | none => simp
    | some d =>
      cases hs : analyzeSectorStrengthE (some d.industryFundFlow) (some d.ljqs)
          d.stockMap with
      | error e => simp [hs]
      | ok heat => simp [hs]
  · unfold fetchData
    cases hm : inp.mffFetch with
    | error e => simp
    | ok m =>
      cases hsec : inp.sectorFetch with
      | error e => simp
      | ok t => simp

/-- A concrete execution environment in which every provider call
succeeds. -/
def c1BaseInputs : RunInputs :=
  { now := ⟨2024, 1, 2, 16⟩
    weekday := 1
    nowMinutes := 980
    timeStr := "2024-01-02 16:20:00"
    stockMap := []
    mffFetch := .ok [⟨0, 0⟩]
    sectorFetch := .ok []
    shAmounts := [1]
    szAmounts := [1]
    activityProducer := .ok []
    congestionProducer := .ok []
    ljqsProducer := .ok []
    cacheS := ⟨[], []⟩
    othersStage := none
    othersConclusion := ""
    othersIntermarket := none
    othersTurnover := none
    othersMargin := none
    othersRanking := [] }

/-- Counterexample for C1 as stated: the same run that renders a report
when all fetches succeed renders *no* report at all when the single
direct market-fund-flow call raises — `fetch_data` returns `False` and
`run_analysis` skips `print_report` entirely, so this data-acquisition
failure is fatal and the "degraded, never absent" report does not
exist. -/
theorem runAnalysis_fetch_failure_no_report :
    (runAnalysis c1BaseInputs).isSome = true ∧
    runAnalysis { c1BaseInputs with mffFetch := .error () } = none := by
  constructor
  · decide
  · rfl
